import Mathlib

/-!
Shallow embedding of the projection engine and summary comparator of the
renting-vs-buying calculator (src/src/App.tsx).

The engine's arithmetic is modelled exactly over the rationals.  The
imperative year loop of `calculateOutput` is modelled by the recursive
function `loopStates` giving the mutable variables at the start of each
iteration, and the emitted snapshot list by mapping `snapshotOf` over the
year indices 0, 1, ..., years (the loop bound is inclusive).
-/

/-- Annual inflation rate: the constant INFLATION_RATE = 0.03 in App.tsx. -/
def INFLATION_RATE : ℚ := 0.03

/-- Annual investment return: the constant INVESTMENT_RATE = 0.07 in App.tsx. -/
def INVESTMENT_RATE : ℚ := 0.07

/-- The input record (type InputData in App.tsx).  `years` is the horizon in
years; the monetary fields and the interest rate are rationals. -/
structure InputData where
  startingCash : ℚ
  monthlyIncome : ℚ
  currentRent : ℚ
  expectedHouseCost : ℚ
  years : ℕ
  homeInterest : ℚ
  taxes : ℚ

/-- One yearly snapshot (type OutputData in App.tsx). -/
structure OutputData where
  year : ℕ
  initialCash : ℚ
  houseValue : ℚ
  rentOrMortgage : ℚ
  moneySpent : ℚ
  moneyAvailable : ℚ
  netInvestment : ℚ
  netWorth : ℚ
deriving Inhabited

/-- The scenario selector: the union type "rent" | "buy5" | "buy20". -/
inductive Scenario
  | rent
  | buy5
  | buy20
deriving DecidableEq

/-- calculateMortgage from App.tsx: amortized fixed monthly payment from the
principal (house cost minus down payment), monthly rate and number of monthly
periods, with the flat extra monthly fees added after the amortization
formula (the `+ extraMonthlyFees` on the rate is commented out in the
source). -/
def calculateMortgage (houseCost downPayment extraMonthlyFees interestRate : ℚ)
    (years : ℕ) : ℚ :=
  let principal := houseCost - downPayment
  let monthlyRate := interestRate / 12
  let n := years * 12
  let numerator := principal * monthlyRate * (1 + monthlyRate) ^ n
  let denominator := (1 + monthlyRate) ^ n - 1
  let mortgage := numerator / denominator
  mortgage + extraMonthlyFees

/-- calculateHouseValue from App.tsx: 0 when renting, otherwise the house
cost appreciated at the inflation rate for the given number of years. -/
def calculateHouseValue (type : Scenario) (inputData : InputData) (years : ℕ) : ℚ :=
  if type = .rent then 0 else inputData.expectedHouseCost * (1 + INFLATION_RATE) ^ years

/-- The down payment computed at the top of calculateOutput: 0 when renting,
5% of the expected house cost for buy5, 20% for buy20. -/
def downPaymentOf (inputData : InputData) : Scenario → ℚ
  | .rent => 0
  | .buy5 => inputData.expectedHouseCost * 0.05
  | .buy20 => inputData.expectedHouseCost * 0.2

/-- The mutable variables of calculateOutput's year loop. -/
structure LoopState where
  initialCash : ℚ
  houseValue : ℚ
  rentOrMortgage : ℚ
  moneySpent : ℚ
  moneyAvailable : ℚ
  netInvestment : ℚ
  netWorth : ℚ

/-- The loop variables of calculateOutput as initialized before the first
iteration. -/
def initState (inputData : InputData) (option : Scenario) : LoopState :=
  let downPayment := downPaymentOf inputData option
  let houseValue : ℚ := if option = .rent then 0 else inputData.expectedHouseCost
  let rentOrMortgage : ℚ :=
    if option = .rent then inputData.currentRent
    else calculateMortgage inputData.expectedHouseCost downPayment inputData.taxes
      inputData.homeInterest inputData.years
  let moneySpent := rentOrMortgage * 12
  let moneyAvailable := inputData.monthlyIncome
  let netInvestment := moneyAvailable * 12 - moneySpent
  { initialCash := inputData.startingCash, houseValue := houseValue,
    rentOrMortgage := rentOrMortgage, moneySpent := moneySpent,
    moneyAvailable := moneyAvailable, netInvestment := netInvestment,
    netWorth := inputData.startingCash }

/-- One iteration of calculateOutput's year loop: the mutation performed
after the snapshot for `year` has been pushed.  On year 0 the down payment
is subtracted from the cash first; then cash grows by the investment rate
and receives the previous net investment; rent grows by inflation while a
mortgage stays constant; finally net worth adds the straight-line
paid-off-house proxy (houseValue / 30) * (year + 1).  The source's clamp
`year + 1 < 0 ? 0 : year + 1` is the identity since year is a natural
number here. -/
def loopStep (inputData : InputData) (option : Scenario) (year : ℕ)
    (s : LoopState) : LoopState :=
  let cashAfterDownPayment :=
    if year = 0 then
      if option = .buy5 then s.initialCash - 0.05 * inputData.expectedHouseCost
      else if option = .buy20 then s.initialCash - 0.2 * inputData.expectedHouseCost
      else s.initialCash
    else s.initialCash
  let houseValue := calculateHouseValue option inputData (year + 1)
  let initialCash := cashAfterDownPayment * (1 + INVESTMENT_RATE) + s.netInvestment
  let rentOrMortgage :=
    if option = .rent then s.rentOrMortgage * (1 + INFLATION_RATE) else s.rentOrMortgage
  let moneySpent := rentOrMortgage * 12
  let netInvestment := s.moneyAvailable * 12 - moneySpent
  let paidOffHouse := (houseValue / 30) * ((year : ℚ) + 1)
  let netWorth := initialCash + paidOffHouse
  { initialCash := initialCash, houseValue := houseValue,
    rentOrMortgage := rentOrMortgage, moneySpent := moneySpent,
    moneyAvailable := s.moneyAvailable, netInvestment := netInvestment,
    netWorth := netWorth }

/-- The loop state at the start of iteration `year` of calculateOutput
(that is, after `year` iterations of the loop body's mutation). -/
def loopStates (inputData : InputData) (option : Scenario) : ℕ → LoopState
  | 0 => initState inputData option
  | year + 1 => loopStep inputData option year (loopStates inputData option year)

/-- The snapshot pushed for a given year index: the current loop state
before mutation, together with the year. -/
def snapshotOf (year : ℕ) (s : LoopState) : OutputData :=
  { year := year, initialCash := s.initialCash, houseValue := s.houseValue,
    rentOrMortgage := s.rentOrMortgage, moneySpent := s.moneySpent,
    moneyAvailable := s.moneyAvailable, netInvestment := s.netInvestment,
    netWorth := s.netWorth }

/-- calculateOutput from App.tsx: for year = 0, 1, ..., inputData.years
(inclusive loop bound) the snapshot of the current state is pushed and the
state then mutated. -/
def calculateOutput (inputData : InputData) (option : Scenario) : List OutputData :=
  (List.range (inputData.years + 1)).map fun year =>
    snapshotOf year (loopStates inputData option year)

/-- The last element of a snapshot list, as outputData[outputData.length - 1]
in calculateSummary (the lists there are never empty). -/
def lastSnap (l : List OutputData) : OutputData := l.getLastD default

/-- Per-scenario summary row (type SummaryData in App.tsx). -/
structure SummaryData where
  cash : ℚ
  homeValue : ℚ
  netWorth : ℚ
  difference : ℚ

/-- The record returned by calculateSummary, one row per scenario. -/
structure SummaryTable where
  rent : SummaryData
  buy5 : SummaryData
  buy20 : SummaryData

/-- calculateSummary from App.tsx: final cash (plus appreciated house value
for the buy scenarios) per scenario, the maximum of the three, and each
row's difference from that maximum (the buy rows subtract their last
snapshot's netWorth field). -/
def calculateSummary (inputData : InputData) : SummaryTable :=
  let outputData1 := calculateOutput inputData .rent
  let outputData2 := calculateOutput inputData .buy5
  let outputData3 := calculateOutput inputData .buy20
  let finalValue1 := (lastSnap outputData1).initialCash
  let finalValue2 := (lastSnap outputData2).initialCash +
    calculateHouseValue .buy5 inputData inputData.years
  let finalValue3 := (lastSnap outputData3).initialCash +
    calculateHouseValue .buy20 inputData inputData.years
  let bestOption := max (max finalValue1 finalValue2) finalValue3
  { rent :=
      { cash := finalValue1, homeValue := 0, netWorth := finalValue1,
        difference := bestOption - finalValue1 }
    buy5 :=
      { cash := (lastSnap outputData2).initialCash,
        homeValue := calculateHouseValue .buy5 inputData inputData.years,
        netWorth := (lastSnap outputData2).netWorth,
        difference := bestOption - (lastSnap outputData2).netWorth }
    buy20 :=
      { cash := (lastSnap outputData3).initialCash,
        homeValue := calculateHouseValue .buy20 inputData inputData.years,
        netWorth := (lastSnap outputData3).netWorth,
        difference := bestOption - (lastSnap outputData3).netWorth } }

/-- A valid input in the sense of the specification: a positive horizon and
non-negative monetary fields. -/
abbrev ValidInput (i : InputData) : Prop :=
  1 ≤ i.years ∧ 0 ≤ i.startingCash ∧ 0 ≤ i.monthlyIncome ∧ 0 ≤ i.currentRent ∧
    0 ≤ i.expectedHouseCost ∧ 0 ≤ i.taxes

/-- A small concrete valid input used for witnesses and counterexamples
(the interest rate 12 gives monthly rate 1, keeping exact arithmetic small). -/
def smallInput : InputData :=
  { startingCash := 1000, monthlyIncome := 100, currentRent := 10,
    expectedHouseCost := 30, years := 2, homeInterest := 12, taxes := 1 }

/-! ### Structural lemmas about the loop and the emitted list -/

theorem calculateOutput_length (i : InputData) (o : Scenario) :
    (calculateOutput i o).length = i.years + 1 := by
  simp [calculateOutput]

theorem calculateOutput_get (i : InputData) (o : Scenario) (k : ℕ)
    (hk : k < (calculateOutput i o).length) :
    (calculateOutput i o).get ⟨k, hk⟩ = snapshotOf k (loopStates i o k) := by
  simp [calculateOutput]

theorem lastSnap_calculateOutput (i : InputData) (o : Scenario) :
    lastSnap (calculateOutput i o) = snapshotOf i.years (loopStates i o i.years) := by
  unfold lastSnap calculateOutput
  rw [List.range_succ, List.map_append]
  simp

theorem loopStates_succ (i : InputData) (o : Scenario) (k : ℕ) :
    loopStates i o (k + 1) = loopStep i o k (loopStates i o k) := rfl

theorem loopStep_moneyAvailable (i : InputData) (o : Scenario) (y : ℕ) (s : LoopState) :
    (loopStep i o y s).moneyAvailable = s.moneyAvailable := rfl

theorem loopStep_houseValue (i : InputData) (o : Scenario) (y : ℕ) (s : LoopState) :
    (loopStep i o y s).houseValue = calculateHouseValue o i (y + 1) := rfl

theorem loopStep_rentOrMortgage (i : InputData) (o : Scenario) (y : ℕ) (s : LoopState) :
    (loopStep i o y s).rentOrMortgage =
      if o = .rent then s.rentOrMortgage * (1 + INFLATION_RATE) else s.rentOrMortgage := rfl

theorem loopStep_netInvestment (i : InputData) (o : Scenario) (y : ℕ) (s : LoopState) :
    (loopStep i o y s).netInvestment =
      s.moneyAvailable * 12 - (loopStep i o y s).rentOrMortgage * 12 := rfl

theorem loopStep_initialCash (i : InputData) (o : Scenario) (y : ℕ) (s : LoopState) :
    (loopStep i o y s).initialCash =
      (if y = 0 then
          if o = .buy5 then s.initialCash - 0.05 * i.expectedHouseCost
          else if o = .buy20 then s.initialCash - 0.2 * i.expectedHouseCost
          else s.initialCash
        else s.initialCash) * (1 + INVESTMENT_RATE) + s.netInvestment := rfl

theorem loopStep_netWorth (i : InputData) (o : Scenario) (y : ℕ) (s : LoopState) :
    (loopStep i o y s).netWorth =
      (loopStep i o y s).initialCash +
        ((loopStep i o y s).houseValue / 30) * ((y : ℚ) + 1) := rfl

theorem loopStates_moneyAvailable (i : InputData) (o : Scenario) (k : ℕ) :
    (loopStates i o k).moneyAvailable = i.monthlyIncome := by
  induction k with
  | zero => rfl
  | succ k ih => rw [loopStates_succ, loopStep_moneyAvailable, ih]

theorem loopStates_netInvestment (i : InputData) (o : Scenario) (k : ℕ) :
    (loopStates i o k).netInvestment =
      i.monthlyIncome * 12 - (loopStates i o k).rentOrMortgage * 12 := by
  cases k with
  | zero => rfl
  | succ k =>
      rw [loopStates_succ, loopStep_netInvestment, loopStates_moneyAvailable]

theorem loopStates_rentOrMortgage_rent (i : InputData) (k : ℕ) :
    (loopStates i .rent k).rentOrMortgage = i.currentRent * (1 + INFLATION_RATE) ^ k := by
  induction k with
  | zero => simp [loopStates, initState]
  | succ k ih =>
      rw [loopStates_succ, loopStep_rentOrMortgage, if_pos rfl, ih, pow_succ, mul_assoc]

theorem loopStates_rentOrMortgage_buy (i : InputData) (o : Scenario) (ho : o ≠ .rent)
    (k : ℕ) :
    (loopStates i o k).rentOrMortgage =
      calculateMortgage i.expectedHouseCost (downPaymentOf i o) i.taxes
        i.homeInterest i.years := by
  induction k with
  | zero => simp [loopStates, initState, ho]
  | succ k ih => rw [loopStates_succ, loopStep_rentOrMortgage, if_neg ho, ih]

theorem loopStates_houseValue_rent (i : InputData) (k : ℕ) :
    (loopStates i .rent k).houseValue = 0 := by
  cases k with
  | zero => simp [loopStates, initState]
  | succ k => rw [loopStates_succ, loopStep_houseValue]; simp [calculateHouseValue]

theorem loopStates_houseValue_buy (i : InputData) (o : Scenario) (ho : o ≠ .rent)
    (k : ℕ) :
    (loopStates i o k).houseValue = i.expectedHouseCost * (1 + INFLATION_RATE) ^ k := by
  cases k with
  | zero => simp [loopStates, initState, ho]
  | succ k => rw [loopStates_succ, loopStep_houseValue]; simp [calculateHouseValue, ho]

theorem loopStates_initialCash_succ (i : InputData) (o : Scenario) (k : ℕ) :
    (loopStates i o (k + 1)).initialCash =
      ((loopStates i o k).initialCash - (if k = 0 then downPaymentOf i o else 0)) *
          (1 + INVESTMENT_RATE) +
        (i.monthlyIncome * 12 - (loopStates i o k).rentOrMortgage * 12) := by
  rw [loopStates_succ, loopStep_initialCash, loopStates_netInvestment]
  cases o <;> simp only [downPaymentOf] <;> split_ifs <;>
    first | exact False.elim (by assumption) | ring

@[simp] theorem snapshotOf_year (y : ℕ) (s : LoopState) : (snapshotOf y s).year = y := rfl

@[simp] theorem snapshotOf_initialCash (y : ℕ) (s : LoopState) :
    (snapshotOf y s).initialCash = s.initialCash := rfl

@[simp] theorem snapshotOf_houseValue (y : ℕ) (s : LoopState) :
    (snapshotOf y s).houseValue = s.houseValue := rfl

@[simp] theorem snapshotOf_rentOrMortgage (y : ℕ) (s : LoopState) :
    (snapshotOf y s).rentOrMortgage = s.rentOrMortgage := rfl

@[simp] theorem snapshotOf_moneySpent (y : ℕ) (s : LoopState) :
    (snapshotOf y s).moneySpent = s.moneySpent := rfl

@[simp] theorem snapshotOf_moneyAvailable (y : ℕ) (s : LoopState) :
    (snapshotOf y s).moneyAvailable = s.moneyAvailable := rfl

@[simp] theorem snapshotOf_netInvestment (y : ℕ) (s : LoopState) :
    (snapshotOf y s).netInvestment = s.netInvestment := rfl

@[simp] theorem snapshotOf_netWorth (y : ℕ) (s : LoopState) :
    (snapshotOf y s).netWorth = s.netWorth := rfl

theorem loopStates_initialCash_zero (i : InputData) (o : Scenario) :
    (loopStates i o 0).initialCash = i.startingCash := rfl

theorem loopStates_netWorth_zero (i : InputData) (o : Scenario) :
    (loopStates i o 0).netWorth = i.startingCash := rfl

theorem loopStates_netWorth_succ (i : InputData) (o : Scenario) (k : ℕ) :
    (loopStates i o (k + 1)).netWorth =
      (loopStates i o (k + 1)).initialCash +
        (loopStates i o (k + 1)).houseValue * (((k : ℚ) + 1) / 30) := by
  rw [loopStates_succ, loopStep_netWorth, loopStep_houseValue]
  ring

/-- A concrete valid input with zero rent and zero income over one year
(valid: the spec only requires monetary fields to be non-negative). -/
def zeroRentInput : InputData :=
  { startingCash := 0, monthlyIncome := 0, currentRent := 0,
    expectedHouseCost := 30, years := 1, homeInterest := 12, taxes := 0 }

/-- A concrete input with a non-positive horizon (years = 0). -/
def zeroYearsInput : InputData :=
  { startingCash := 5, monthlyIncome := 0, currentRent := 3,
    expectedHouseCost := 0, years := 0, homeInterest := 0, taxes := 0 }

/-! ### The claims -/

/-- C1: for every valid input and every scenario, calculateOutput returns a
sequence of length exactly years + 1 (the inclusive variant), whose year
fields are strictly increasing starting at 0 (the snapshot at index k has
year field k); in particular the sequence is non-empty, so years = 1 gives
a minimal non-empty sequence. -/
theorem C1_projection_length_and_years (input : InputData) (scenario : Scenario)
    (hv : ValidInput input) :
    (calculateOutput input scenario).length = input.years + 1 ∧
      (∀ k (hk : k < (calculateOutput input scenario).length),
        ((calculateOutput input scenario).get ⟨k, hk⟩).year = k) ∧
      calculateOutput input scenario ≠ [] := by
  refine ⟨calculateOutput_length input scenario, ?_, ?_⟩
  · intro k hk
    rw [calculateOutput_get]
    rfl
  · intro h
    have hlen := calculateOutput_length input scenario
    rw [h] at hlen
    simp at hlen

/-- Witness for C1 at the concrete input smallInput in the rent scenario. -/
theorem C1_projection_length_and_years_witness :
    ValidInput smallInput ∧
      ((calculateOutput smallInput .rent).length = smallInput.years + 1 ∧
        (∀ k (hk : k < (calculateOutput smallInput .rent).length),
          ((calculateOutput smallInput .rent).get ⟨k, hk⟩).year = k) ∧
        calculateOutput smallInput .rent ≠ []) :=
  ⟨by norm_num [ValidInput, smallInput],
    C1_projection_length_and_years smallInput .rent (by norm_num [ValidInput, smallInput])⟩

/-- C2: in every buy scenario, every snapshot's monthly housing cost equals
the amortized fixed payment P r (1+r)^n / ((1+r)^n - 1) on the principal
P = expectedHouseCost - downPayment (the down payment being 5% or 20% of
the house cost per scenario), with r the annual rate over 12 and
n = years * 12, plus the flat monthly taxes added arithmetically after the
amortization formula. -/
theorem C2_mortgage_formula (input : InputData) (scenario : Scenario)
    (hs : scenario ≠ .rent) (hv : ValidInput input) (k : ℕ)
    (hk : k < (calculateOutput input scenario).length) :
    ((calculateOutput input scenario).get ⟨k, hk⟩).rentOrMortgage =
      (input.expectedHouseCost - downPaymentOf input scenario) *
          (input.homeInterest / 12) *
          (1 + input.homeInterest / 12) ^ (input.years * 12) /
          ((1 + input.homeInterest / 12) ^ (input.years * 12) - 1) +
        input.taxes := by
  rw [calculateOutput_get, snapshotOf_rentOrMortgage,
    loopStates_rentOrMortgage_buy input scenario hs]
  rfl

/-- Witness for C2 at smallInput, buy5, snapshot 0. -/
theorem C2_mortgage_formula_witness :
    Scenario.buy5 ≠ Scenario.rent ∧ ValidInput smallInput ∧
      ((calculateOutput smallInput .buy5).get
          ⟨0, by rw [calculateOutput_length]; exact Nat.succ_pos _⟩).rentOrMortgage =
        (smallInput.expectedHouseCost - downPaymentOf smallInput .buy5) *
            (smallInput.homeInterest / 12) *
            (1 + smallInput.homeInterest / 12) ^ (smallInput.years * 12) /
            ((1 + smallInput.homeInterest / 12) ^ (smallInput.years * 12) - 1) +
          smallInput.taxes :=
  ⟨by decide, by norm_num [ValidInput, smallInput],
    C2_mortgage_formula smallInput .buy5 (by decide) (by norm_num [ValidInput, smallInput]) 0 _⟩

/-- C3: for every scenario and every pair of consecutive snapshots, the cash
balance obeys cash at k+1 = cash at k times (1 + 0.07) plus
(monthlyIncome * 12 - housingCost at k * 12), where for the buy scenarios
the one-time down payment is additionally subtracted from the cash between
the year-0 and year-1 snapshots (before the growth factor is applied). -/
theorem C3_cash_recurrence (input : InputData) (scenario : Scenario)
    (hv : ValidInput input) (k : ℕ)
    (hk : k + 1 < (calculateOutput input scenario).length) :
    ((calculateOutput input scenario).get ⟨k + 1, hk⟩).initialCash =
      (((calculateOutput input scenario).get
            ⟨k, Nat.lt_of_succ_lt hk⟩).initialCash -
          (if k = 0 then downPaymentOf input scenario else 0)) *
          (1 + INVESTMENT_RATE) +
        (input.monthlyIncome * 12 -
          ((calculateOutput input scenario).get
              ⟨k, Nat.lt_of_succ_lt hk⟩).rentOrMortgage * 12) := by
  rw [calculateOutput_get, calculateOutput_get, snapshotOf_initialCash,
    snapshotOf_initialCash, snapshotOf_rentOrMortgage]
  exact loopStates_initialCash_succ input scenario k

/-- Witness for C3 at smallInput, buy20, between snapshots 0 and 1. -/
theorem C3_cash_recurrence_witness :
    ValidInput smallInput ∧
      ((calculateOutput smallInput .buy20).get
          ⟨0 + 1, by rw [calculateOutput_length]; norm_num [ValidInput, smallInput]⟩).initialCash =
        (((calculateOutput smallInput .buy20).get
              ⟨0, Nat.lt_of_succ_lt (by rw [calculateOutput_length]; norm_num [ValidInput, smallInput])⟩).initialCash -
            (if 0 = 0 then downPaymentOf smallInput .buy20 else 0)) *
            (1 + INVESTMENT_RATE) +
          (smallInput.monthlyIncome * 12 -
            ((calculateOutput smallInput .buy20).get
                ⟨0, Nat.lt_of_succ_lt (by rw [calculateOutput_length]; norm_num [ValidInput, smallInput])⟩).rentOrMortgage * 12) :=
  ⟨by norm_num [ValidInput, smallInput],
    C3_cash_recurrence smallInput .buy20 (by norm_num [ValidInput, smallInput]) 0 _⟩

/-- C4: in the rent scenario every snapshot has houseValue 0 and the monthly
housing cost at year index k is currentRent * 1.03 ^ k. -/
theorem C4_rent_housevalue_and_cost (input : InputData) (hv : ValidInput input)
    (k : ℕ) (hk : k < (calculateOutput input .rent).length) :
    ((calculateOutput input .rent).get ⟨k, hk⟩).houseValue = 0 ∧
      ((calculateOutput input .rent).get ⟨k, hk⟩).rentOrMortgage =
        input.currentRent * (1.03 : ℚ) ^ k := by
  rw [calculateOutput_get, snapshotOf_houseValue, snapshotOf_rentOrMortgage]
  refine ⟨loopStates_houseValue_rent input k, ?_⟩
  rw [loopStates_rentOrMortgage_rent]
  norm_num [INFLATION_RATE]

/-- Witness for C4 at smallInput, snapshot 1. -/
theorem C4_rent_housevalue_and_cost_witness :
    ValidInput smallInput ∧
      (((calculateOutput smallInput .rent).get
          ⟨1, by rw [calculateOutput_length]; norm_num [ValidInput, smallInput]⟩).houseValue = 0 ∧
        ((calculateOutput smallInput .rent).get
            ⟨1, by rw [calculateOutput_length]; norm_num [ValidInput, smallInput]⟩).rentOrMortgage =
          smallInput.currentRent * (1.03 : ℚ) ^ 1) :=
  ⟨by norm_num [ValidInput, smallInput],
    C4_rent_housevalue_and_cost smallInput (by norm_num [ValidInput, smallInput]) 1 _⟩

/-- C5: in every buy scenario the down payment is subtracted from the cash
exactly once, taking effect between the year-0 and year-1 snapshots: the
year-0 snapshot still shows the pre-down-payment startingCash, the step to
year 1 subtracts the down payment before growth, and every later step
applies the plain growth-plus-net-investment recurrence with no further
deduction. -/
theorem C5_down_payment_once (input : InputData) (scenario : Scenario)
    (hs : scenario ≠ .rent) (hv : ValidInput input) :
    (∀ (h0 : 0 < (calculateOutput input scenario).length),
        ((calculateOutput input scenario).get ⟨0, h0⟩).initialCash =
          input.startingCash) ∧
      (∀ (h1 : 1 < (calculateOutput input scenario).length),
        ((calculateOutput input scenario).get ⟨1, h1⟩).initialCash =
          (((calculateOutput input scenario).get
                ⟨0, Nat.lt_of_succ_lt h1⟩).initialCash -
              downPaymentOf input scenario) * (1 + INVESTMENT_RATE) +
            (input.monthlyIncome * 12 -
              ((calculateOutput input scenario).get
                  ⟨0, Nat.lt_of_succ_lt h1⟩).rentOrMortgage * 12)) ∧
      (∀ k (hk : k + 2 < (calculateOutput input scenario).length),
        ((calculateOutput input scenario).get ⟨k + 2, hk⟩).initialCash =
          ((calculateOutput input scenario).get
                ⟨k + 1, Nat.lt_of_succ_lt hk⟩).initialCash *
              (1 + INVESTMENT_RATE) +
            (input.monthlyIncome * 12 -
              ((calculateOutput input scenario).get
                  ⟨k + 1, Nat.lt_of_succ_lt hk⟩).rentOrMortgage * 12)) := by
  refine ⟨?_, ?_, ?_⟩
  · intro h0
    rw [calculateOutput_get, snapshotOf_initialCash, loopStates_initialCash_zero]
  · intro h1
    rw [calculateOutput_get, calculateOutput_get, snapshotOf_initialCash,
      snapshotOf_initialCash, snapshotOf_rentOrMortgage]
    have := loopStates_initialCash_succ input scenario 0
    rwa [if_pos rfl] at this
  · intro k hk
    rw [calculateOutput_get, calculateOutput_get, snapshotOf_initialCash,
      snapshotOf_initialCash, snapshotOf_rentOrMortgage]
    have := loopStates_initialCash_succ input scenario (k + 1)
    rwa [if_neg (Nat.succ_ne_zero k), sub_zero] at this

/-- Witness for C5 at smallInput, buy5. -/
theorem C5_down_payment_once_witness :
    Scenario.buy5 ≠ Scenario.rent ∧ ValidInput smallInput ∧
      ((∀ (h0 : 0 < (calculateOutput smallInput .buy5).length),
          ((calculateOutput smallInput .buy5).get ⟨0, h0⟩).initialCash =
            smallInput.startingCash) ∧
        (∀ (h1 : 1 < (calculateOutput smallInput .buy5).length),
          ((calculateOutput smallInput .buy5).get ⟨1, h1⟩).initialCash =
            (((calculateOutput smallInput .buy5).get
                  ⟨0, Nat.lt_of_succ_lt h1⟩).initialCash -
                downPaymentOf smallInput .buy5) * (1 + INVESTMENT_RATE) +
              (smallInput.monthlyIncome * 12 -
                ((calculateOutput smallInput .buy5).get
                    ⟨0, Nat.lt_of_succ_lt h1⟩).rentOrMortgage * 12)) ∧
        (∀ k (hk : k + 2 < (calculateOutput smallInput .buy5).length),
          ((calculateOutput smallInput .buy5).get ⟨k + 2, hk⟩).initialCash =
            ((calculateOutput smallInput .buy5).get
                  ⟨k + 1, Nat.lt_of_succ_lt hk⟩).initialCash *
                (1 + INVESTMENT_RATE) +
              (smallInput.monthlyIncome * 12 -
                ((calculateOutput smallInput .buy5).get
                    ⟨k + 1, Nat.lt_of_succ_lt hk⟩).rentOrMortgage * 12))) :=
  ⟨by decide, by norm_num [ValidInput, smallInput],
    C5_down_payment_once smallInput .buy5 (by decide) (by norm_num [ValidInput, smallInput])⟩

/-- The final net worth of a scenario as the comparator's specification
describes it: the last snapshot's cash balance plus the projected house
value at the horizon (0 for the rent scenario). -/
def finalNetWorthCandidate (inputData : InputData) (option : Scenario) : ℚ :=
  (lastSnap (calculateOutput inputData option)).initialCash +
    calculateHouseValue option inputData inputData.years

/-- The maximum of the three scenarios' final net worths, as computed by
calculateSummary's bestOption. -/
def bestFinalNetWorth (inputData : InputData) : ℚ :=
  max (max (finalNetWorthCandidate inputData .rent)
      (finalNetWorthCandidate inputData .buy5))
    (finalNetWorthCandidate inputData .buy20)

theorem calculateSummary_rent_difference (i : InputData) :
    (calculateSummary i).rent.difference =
      bestFinalNetWorth i - finalNetWorthCandidate i .rent := by
  unfold calculateSummary bestFinalNetWorth finalNetWorthCandidate
  simp [calculateHouseValue]

theorem calculateSummary_buy5_difference (i : InputData) :
    (calculateSummary i).buy5.difference =
      bestFinalNetWorth i - (lastSnap (calculateOutput i .buy5)).netWorth := by
  unfold calculateSummary bestFinalNetWorth finalNetWorthCandidate
  simp [calculateHouseValue]

theorem calculateSummary_buy20_difference (i : InputData) :
    (calculateSummary i).buy20.difference =
      bestFinalNetWorth i - (lastSnap (calculateOutput i .buy20)).netWorth := by
  unfold calculateSummary bestFinalNetWorth finalNetWorthCandidate
  simp [calculateHouseValue]

theorem lastSnap_netWorth_buy (i : InputData) (o : Scenario) (ho : o ≠ .rent)
    (hy : 1 ≤ i.years) :
    (lastSnap (calculateOutput i o)).netWorth =
      (lastSnap (calculateOutput i o)).initialCash +
        calculateHouseValue o i i.years * ((i.years : ℚ) / 30) := by
  obtain ⟨m, hm⟩ : ∃ m, i.years = m + 1 :=
    ⟨i.years - 1, (Nat.succ_pred_eq_of_pos hy).symm⟩
  rw [lastSnap_calculateOutput, snapshotOf_netWorth, snapshotOf_initialCash, hm,
    loopStates_netWorth_succ, loopStates_houseValue_buy i o ho]
  simp only [calculateHouseValue, if_neg ho]
  push_cast
  ring

/-- C6 counterexample: at smallInput in the buy20 scenario the year-0
snapshot's netWorth field is the cash balance alone, not cash plus
houseValue * min 1 ((0 + 1) / 30). -/
theorem C6_netWorth_counterexample :
    ((calculateOutput smallInput .buy20).get
        ⟨0, by rw [calculateOutput_length]; exact Nat.succ_pos _⟩).netWorth ≠
      ((calculateOutput smallInput .buy20).get
          ⟨0, by rw [calculateOutput_length]; exact Nat.succ_pos _⟩).initialCash +
        ((calculateOutput smallInput .buy20).get
            ⟨0, by rw [calculateOutput_length]; exact Nat.succ_pos _⟩).houseValue *
          min 1 ((0 + 1) / 30 : ℚ) := by
  rw [calculateOutput_get, snapshotOf_netWorth, snapshotOf_initialCash,
    snapshotOf_houseValue, loopStates_netWorth_zero, loopStates_initialCash_zero,
    loopStates_houseValue_buy smallInput .buy20 (by decide),
    min_eq_right (by norm_num : ((0 : ℚ) + 1) / 30 ≤ 1)]
  norm_num [smallInput]

/-- C6 corrected: the netWorth of the year-0 snapshot is the cash balance
alone (no house term), and the netWorth of the snapshot at year index k + 1
is cashBalance + houseValue * ((k + 1) / 30), with no cap at 1 (the
fraction exceeds 1 once the year index exceeds 30). -/
theorem C6_netWorth_amended (input : InputData) (scenario : Scenario)
    (hv : ValidInput input) :
    (∀ (h0 : 0 < (calculateOutput input scenario).length),
        ((calculateOutput input scenario).get ⟨0, h0⟩).netWorth =
          ((calculateOutput input scenario).get ⟨0, h0⟩).initialCash) ∧
      ∀ k (hk : k + 1 < (calculateOutput input scenario).length),
        ((calculateOutput input scenario).get ⟨k + 1, hk⟩).netWorth =
          ((calculateOutput input scenario).get ⟨k + 1, hk⟩).initialCash +
            ((calculateOutput input scenario).get ⟨k + 1, hk⟩).houseValue *
              (((k : ℚ) + 1) / 30) := by
  constructor
  · intro h0
    rw [calculateOutput_get, snapshotOf_netWorth, snapshotOf_initialCash,
      loopStates_netWorth_zero, loopStates_initialCash_zero]
  · intro k hk
    rw [calculateOutput_get, snapshotOf_netWorth, snapshotOf_initialCash,
      snapshotOf_houseValue]
    exact loopStates_netWorth_succ input scenario k

/-- Witness for the corrected C6 at smallInput, buy20. -/
theorem C6_netWorth_amended_witness :
    ValidInput smallInput ∧
      ((∀ (h0 : 0 < (calculateOutput smallInput .buy20).length),
          ((calculateOutput smallInput .buy20).get ⟨0, h0⟩).netWorth =
            ((calculateOutput smallInput .buy20).get ⟨0, h0⟩).initialCash) ∧
        ∀ k (hk : k + 1 < (calculateOutput smallInput .buy20).length),
          ((calculateOutput smallInput .buy20).get ⟨k + 1, hk⟩).netWorth =
            ((calculateOutput smallInput .buy20).get ⟨k + 1, hk⟩).initialCash +
              ((calculateOutput smallInput .buy20).get ⟨k + 1, hk⟩).houseValue *
                (((k : ℚ) + 1) / 30)) :=
  ⟨by norm_num [ValidInput, smallInput],
    C6_netWorth_amended smallInput .buy20 (by norm_num [ValidInput, smallInput])⟩

/-- C7 counterexample: at zeroRentInput (years = 1) the buy5 row's
difference is not the maximum final net worth minus buy5's own final net
worth (last cash plus house value at the horizon). -/
theorem C7_summary_difference_counterexample :
    (calculateSummary zeroRentInput).buy5.difference ≠
      bestFinalNetWorth zeroRentInput - finalNetWorthCandidate zeroRentInput .buy5 := by
  rw [calculateSummary_buy5_difference]
  intro h
  have h2 := sub_right_inj.mp h
  rw [lastSnap_netWorth_buy zeroRentInput .buy5 (by decide)
      (by norm_num [zeroRentInput])] at h2
  unfold finalNetWorthCandidate at h2
  have hne : Scenario.buy5 ≠ Scenario.rent := by decide
  have hHV : calculateHouseValue .buy5 zeroRentInput zeroRentInput.years = 309 / 10 := by
    norm_num [calculateHouseValue, hne, INFLATION_RATE, zeroRentInput]
  rw [hHV] at h2
  norm_num [zeroRentInput] at h2

/-- C7 corrected: the comparator takes the maximum of the three final net
worths (last cash plus projected house value at the horizon, 0 for rent);
the rent row's difference is the maximum minus rent's final net worth, but
each buy row's difference is the maximum minus that scenario's last
snapshot netWorth field, which equals last cash plus the horizon house
value scaled by years / 30 (so it agrees with the claim only when
years = 30). -/
theorem C7_summary_differences (input : InputData) (hv : ValidInput input) :
    (calculateSummary input).rent.difference =
        bestFinalNetWorth input - finalNetWorthCandidate input .rent ∧
      (calculateSummary input).buy5.difference =
        bestFinalNetWorth input -
          ((lastSnap (calculateOutput input .buy5)).initialCash +
            calculateHouseValue .buy5 input input.years * ((input.years : ℚ) / 30)) ∧
      (calculateSummary input).buy20.difference =
        bestFinalNetWorth input -
          ((lastSnap (calculateOutput input .buy20)).initialCash +
            calculateHouseValue .buy20 input input.years * ((input.years : ℚ) / 30)) := by
  refine ⟨calculateSummary_rent_difference input, ?_, ?_⟩
  · rw [calculateSummary_buy5_difference,
      lastSnap_netWorth_buy input .buy5 (by decide) hv.1]
  · rw [calculateSummary_buy20_difference,
      lastSnap_netWorth_buy input .buy20 (by decide) hv.1]

/-- Witness for the corrected C7 at smallInput. -/
theorem C7_summary_differences_witness :
    ValidInput smallInput ∧
      ((calculateSummary smallInput).rent.difference =
          bestFinalNetWorth smallInput - finalNetWorthCandidate smallInput .rent ∧
        (calculateSummary smallInput).buy5.difference =
          bestFinalNetWorth smallInput -
            ((lastSnap (calculateOutput smallInput .buy5)).initialCash +
              calculateHouseValue .buy5 smallInput smallInput.years *
                ((smallInput.years : ℚ) / 30)) ∧
        (calculateSummary smallInput).buy20.difference =
          bestFinalNetWorth smallInput -
            ((lastSnap (calculateOutput smallInput .buy20)).initialCash +
              calculateHouseValue .buy20 smallInput smallInput.years *
                ((smallInput.years : ℚ) / 30))) :=
  ⟨by norm_num [ValidInput, smallInput],
    C7_summary_differences smallInput (by norm_num [ValidInput, smallInput])⟩

/-- C8 counterexample: at zeroYearsInput, whose years field is 0 (an invalid
input per the specification's error contract), the engine does not fail
with InvalidInput: it returns a complete one-snapshot sequence. -/
theorem C8_no_failure_counterexample :
    zeroYearsInput.years = 0 ∧ (calculateOutput zeroYearsInput .rent).length = 1 :=
  ⟨rfl, by rw [calculateOutput_length]; rfl⟩

/-- C8 corrected: the engine has no failure mode at all: calculateOutput is
a total function returning a complete sequence of years + 1 well-indexed
snapshots for every input and scenario, including years = 0 and negative
monetary fields; the code performs no InvalidInput validation. -/
theorem C8_total_no_validation (input : InputData) (scenario : Scenario) :
    (calculateOutput input scenario).length = input.years + 1 ∧
      ∀ k (hk : k < (calculateOutput input scenario).length),
        ((calculateOutput input scenario).get ⟨k, hk⟩).year = k := by
  refine ⟨calculateOutput_length input scenario, ?_⟩
  intro k hk
  rw [calculateOutput_get, snapshotOf_year]

/-- C9 counterexample: zeroRentInput is a valid input (currentRent = 0 is a
non-negative monetary field) and the inflation rate is positive, yet the
rent scenario's monthly housing cost is not strictly increasing between
snapshots 0 and 1: it stays 0. -/
theorem C9_strict_increase_counterexample :
    ValidInput zeroRentInput ∧ 0 < INFLATION_RATE ∧
      ¬(((calculateOutput zeroRentInput .rent).get
            ⟨0, by rw [calculateOutput_length]; exact Nat.succ_pos _⟩).rentOrMortgage <
        ((calculateOutput zeroRentInput .rent).get
            ⟨1, by rw [calculateOutput_length]; norm_num [zeroRentInput]⟩).rentOrMortgage) := by
  refine ⟨by norm_num [ValidInput, zeroRentInput], by norm_num [INFLATION_RATE], ?_⟩
  rw [calculateOutput_get, calculateOutput_get, snapshotOf_rentOrMortgage,
    snapshotOf_rentOrMortgage, loopStates_rentOrMortgage_rent,
    loopStates_rentOrMortgage_rent]
  norm_num [zeroRentInput]

/-- C9 corrected: in every buy scenario the monthly mortgage payment field
is the same in all snapshots; in the rent scenario the monthly housing cost
is strictly increasing from each snapshot to the next whenever currentRent
is positive (the inflation rate is the positive constant 0.03); with
currentRent = 0 it stays constant at 0. -/
theorem C9_constant_mortgage_increasing_rent (input : InputData)
    (hv : ValidInput input) (scenario : Scenario) (hs : scenario ≠ .rent) :
    (∀ k (hk : k < (calculateOutput input scenario).length)
        j (hj : j < (calculateOutput input scenario).length),
        ((calculateOutput input scenario).get ⟨k, hk⟩).rentOrMortgage =
          ((calculateOutput input scenario).get ⟨j, hj⟩).rentOrMortgage) ∧
      (0 < input.currentRent →
        ∀ k (hk : k + 1 < (calculateOutput input .rent).length),
          ((calculateOutput input .rent).get
              ⟨k, Nat.lt_of_succ_lt hk⟩).rentOrMortgage <
            ((calculateOutput input .rent).get ⟨k + 1, hk⟩).rentOrMortgage) := by
  constructor
  · intro k hk j hj
    rw [calculateOutput_get, calculateOutput_get, snapshotOf_rentOrMortgage,
      snapshotOf_rentOrMortgage, loopStates_rentOrMortgage_buy input scenario hs,
      loopStates_rentOrMortgage_buy input scenario hs]
  · intro hc k hk
    rw [calculateOutput_get, calculateOutput_get, snapshotOf_rentOrMortgage,
      snapshotOf_rentOrMortgage, loopStates_rentOrMortgage_rent,
      loopStates_rentOrMortgage_rent]
    have hpos : 0 < input.currentRent * (1 + INFLATION_RATE) ^ k :=
      mul_pos hc (pow_pos (by norm_num [INFLATION_RATE]) k)
    rw [pow_succ, ← mul_assoc]
    exact lt_mul_of_one_lt_right hpos (by norm_num [INFLATION_RATE])

/-- Witness for the corrected C9 at smallInput, buy5 (currentRent = 10). -/
theorem C9_constant_mortgage_increasing_rent_witness :
    ValidInput smallInput ∧ Scenario.buy5 ≠ Scenario.rent ∧
      ((∀ k (hk : k < (calculateOutput smallInput .buy5).length)
          j (hj : j < (calculateOutput smallInput .buy5).length),
          ((calculateOutput smallInput .buy5).get ⟨k, hk⟩).rentOrMortgage =
            ((calculateOutput smallInput .buy5).get ⟨j, hj⟩).rentOrMortgage) ∧
        (0 < smallInput.currentRent →
          ∀ k (hk : k + 1 < (calculateOutput smallInput .rent).length),
            ((calculateOutput smallInput .rent).get
                ⟨k, Nat.lt_of_succ_lt hk⟩).rentOrMortgage <
              ((calculateOutput smallInput .rent).get ⟨k + 1, hk⟩).rentOrMortgage)) :=
  ⟨by norm_num [ValidInput, smallInput], by decide,
    C9_constant_mortgage_increasing_rent smallInput
      (by norm_num [ValidInput, smallInput]) .buy5 (by decide)⟩

/-- C10: in the buy scenarios the snapshot at year index k has
houseValue = expectedHouseCost * 1.03 ^ k for every k from 0 to years: the
house value starts at the full purchase price in year 0 and appreciates
from year 0 onward. -/
theorem C10_buy_housevalue_from_year_zero (input : InputData) (scenario : Scenario)
    (hs : scenario ≠ .rent) (k : ℕ)
    (hk : k < (calculateOutput input scenario).length) :
    ((calculateOutput input scenario).get ⟨k, hk⟩).houseValue =
      input.expectedHouseCost * (1.03 : ℚ) ^ k := by
  rw [calculateOutput_get, snapshotOf_houseValue,
    loopStates_houseValue_buy input scenario hs]
  norm_num [INFLATION_RATE]

/-- Witness for C10 at smallInput, buy20, snapshot 0. -/
theorem C10_buy_housevalue_from_year_zero_witness :
    Scenario.buy20 ≠ Scenario.rent ∧
      ((calculateOutput smallInput .buy20).get
          ⟨0, by rw [calculateOutput_length]; exact Nat.succ_pos _⟩).houseValue =
        smallInput.expectedHouseCost * (1.03 : ℚ) ^ 0 :=
  ⟨by decide, C10_buy_housevalue_from_year_zero smallInput .buy20 (by decide) 0 _⟩
